import Mathlib

/-!
Shallow embedding of the `unified` processor core (src/index.js).

The module under verification is the orchestration layer of a
parse / transform / compile pipeline.  External collaborators
(vfile, ware, attach-ware, unherit, bail, extend) are modelled at their
interface boundary:

* a carrier file (`VFile`) is a contents string plus a namespaced
  metadata bag mapping string keys to a `tree` slot;
* the ordered middleware runner (`ware` + `wrap-fn`) invokes registered
  transformers one at a time in registration order and stops at the
  first error a transformer hands to its continuation;
* `unherit` produces a fresh clone of a constructor; object identity is
  modelled by a natural-number allocation counter;
* a Parser is a function from a carrier file and settings to a tree or
  a rejection; a Compiler is a function from a carrier file and
  settings to an output value.

JavaScript dynamic values occupying the overloaded argument slots are
modelled by small inductive grammars covering the value shapes the API
documents (tree / carrier file / callback / null / undefined).
-/

/-- A syntax tree node.  The core treats trees as opaque apart from the
discriminating `type` field used by argument disambiguation; `tag`
models object identity. -/
structure Node where
  typ : Option String
  tag : Nat
deriving DecidableEq, Repr

/-- JavaScript truthiness of `node.type`: present and not the empty
string. -/
def Node.typeTruthy (n : Node) : Bool :=
  match n.typ with
  | none => false
  | some s => !(s == "")

/-- The per-key metadata bag a carrier file hands out from
`file.namespace(key)`; the core only uses its `tree` slot. -/
structure Space where
  tree : Option Node
deriving DecidableEq, Repr

/-- Carrier file (vfile): raw contents plus the namespaced metadata
bags.  `new VFile(x)` on an existing `VFile` returns the same object,
so normalization of a `VFile` is the identity here. -/
structure VFile where
  contents : String
  spaces : List (String × Space)
deriving DecidableEq, Repr

/-- `new VFile()` / `new VFile(null)`: an empty carrier file. -/
def emptyVFile : VFile := ⟨"", []⟩

/-- `file.namespace(key)`: the bag stored under `key`, or a fresh empty
bag when none exists yet. -/
def VFile.namespaceGet (f : VFile) (key : String) : Space :=
  match f.spaces.lookup key with
  | some s => s
  | none => ⟨none⟩

/-- Assignment `file.namespace(key).tree = n`: store `n` under `key`,
replacing whatever the slot held. -/
def VFile.setTree (f : VFile) (key : String) (n : Node) : VFile :=
  ⟨f.contents, (key, ⟨some n⟩) :: f.spaces.filter (fun kv => !(kv.1 == key))⟩

/-- Errors travelling through the pipeline: the `Expected node` error
thrown by `run`/`stringify` when no tree can be resolved, and opaque
error objects produced by transformers or collaborators (`tag` models
object identity, so propagation "unchanged" is equality). -/
inductive JErr where
  | expectedNode
  | user (tag : Nat)
deriving DecidableEq, Repr

/-- A registered transformer.  `tid` models function identity (used to
observe execution order); `act` is the transformer body's observable
effect toward the runner: `none` means it completed without error
(synchronous return or continuation called with no error), `some e`
means it invoked its continuation with the error object `e`. -/
structure Transformer where
  tid : Nat
  act : Node → VFile → Option JErr

/-- `ware.run(node, file, done)` over the registered functions: invoke
each transformer in registration order; the first error stops the
sequence and is reported to `done`.  Returns the identities of the
transformers that executed, in order, and the error handed to `done`
(if any). -/
def wareRunGo : List Transformer → Node → VFile → List Nat × Option JErr
  | [], _, _ => ([], none)
  | t :: rest, n, f =>
    match t.act n f with
    | some e => ([t.tid], some e)
    | none =>
      let w := wareRunGo rest n f
      (t.tid :: w.1, w.2)

/-- Values occupying the first (`node`) positional slot of `run` /
`stringify`. -/
inductive NodeArg where
  | undef
  | null
  | node (n : Node)
deriving Repr

/-- Values occupying the second (`file`) positional slot of
`stringify` (and of `run` after the callback overload is resolved). -/
inductive SFileArg where
  | undef
  | null
  | file (f : VFile)
deriving Repr

/-- Values occupying the second (`file`) positional slot of `run`:
as `SFileArg`, plus a callback function. -/
inductive FileArg where
  | undef
  | null
  | file (f : VFile)
  | func
deriving Repr

/-- `run` line 127-130: `if (typeof file === 'function') { done = file;
file = null; }`. -/
def fileArgDrop : FileArg → SFileArg
  | .func => .null
  | .undef => .undef
  | .null => .null
  | .file f => .file f

/-- Lines 132-137 of `run` (and the identical lines 216-221 of
`stringify`): `if (!file && node && !node.type) { file = node;
node = null; }` followed by `file = new VFile(file)`.

A node reinterpreted as the file is a plain object without vfile
fields, so `new VFile(node)` yields an empty carrier file.  Returns the
resolved optional tree argument and the normalized carrier file. -/
def argDisamb (node₀ : NodeArg) (file₁ : SFileArg) : Option Node × VFile :=
  match node₀, file₁ with
  | .node n, .file f => (some n, f)
  | .node n, _ =>
    if n.typeTruthy then (some n, emptyVFile) else (none, emptyVFile)
  | _, .file f => (none, f)
  | _, _ => (none, emptyVFile)

/-- Lines 140-144 of `run` (identical lines 224-228 of `stringify`):
tree-resolution precedence.  With no tree argument, read the namespace
slot; with a tree argument, use it and store it in the slot only when
the slot is empty (fill-if-empty). -/
def resolveTree (name : String) (node₁ : Option Node) (file₂ : VFile) :
    Option Node × VFile :=
  match node₁ with
  | none => ((file₂.namespaceGet name).tree, file₂)
  | some n =>
    match (file₂.namespaceGet name).tree with
    | none => (some n, file₂.setTree name n)
    | some _ => (some n, file₂)

/-- Outcome of a `run` call that did not throw: the synchronously
returned node, the (possibly slot-filled) carrier file, the identities
of the transformers that executed in order, and the error the callback
received (if any; `none` means the callback got `(null, node, file)`). -/
structure RunResult where
  ret : Node
  file : VFile
  trace : List Nat
  cbErr : Option JErr
deriving DecidableEq, Repr

/-- Lines 157-161 of `run`: `if (self.ware && self.ware.fns)` hand the
tree, the file and the callback to the ware (an instance's `fns` array
is truthy even when empty), `else` invoke the callback immediately with
no error.  `selfWare = none` models a receiver without a `ware`
property (the bare family class). -/
def wareOutcome (selfWare : Option (List Transformer)) (n : Node)
    (f : VFile) : List Nat × Option JErr :=
  match selfWare with
  | some fns => wareRunGo fns n f
  | none => ([], none)

/-- `run(node, file, done)` (lines 123-164).  `selfWare` is the
receiver's `ware`: `some fns` when the receiver is a Processor
instance, `none` when `run` is invoked on the bare family class, which
has no `ware` property.  `Except.error .expectedNode` models the
synchronous throw at line 147; callback outcomes live inside
`RunResult` instead. -/
def runFn (name : String) (selfWare : Option (List Transformer))
    (node₀ : NodeArg) (file₀ : FileArg) : Except JErr RunResult :=
  match resolveTree name (argDisamb node₀ (fileArgDrop file₀)).1
      (argDisamb node₀ (fileArgDrop file₀)).2 with
  | (none, _) => .error .expectedNode
  | (some n, f₃) =>
    .ok ⟨n, f₃, (wareOutcome selfWare n f₃).1, (wareOutcome selfWare n f₃).2⟩

/-- Values occupying the `settings` slot, and the value the Compiler
receives as its settings after `stringify`'s overload resolution moved
the file slot's content there: `undefined`, `null`, a carrier file, or
a plain options object (identified by a tag). -/
inductive SVal where
  | undef
  | null
  | file (f : VFile)
  | obj (o : Nat)
deriving DecidableEq, Repr

/-- `settings === null || settings === undefined`. -/
def SVal.isNullish : SVal → Bool
  | .undef => true
  | .null => true
  | _ => false

/-- The file-slot value viewed as a settings value (the assignment
`settings = file` at line 212). -/
def sfileToSVal : SFileArg → SVal
  | .undef => .undef
  | .null => .null
  | .file f => .file f

/-- `stringify(node, file, settings)` (lines 207-235).  `compile`
models `new CustomCompiler(file, settings, instance(this)).compile()`:
the resolved Compiler applied to the carrier file and the settings
value; its result is returned directly. -/
def stringifyFn {α : Type} (name : String) (compile : VFile → SVal → α)
    (node₀ : NodeArg) (file₀ : SFileArg) (settings₀ : SVal) :
    Except JErr α :=
  let sf : SVal × SFileArg :=
    if settings₀.isNullish then (sfileToSVal file₀, .null) else (settings₀, file₀)
  match resolveTree name (argDisamb node₀ sf.2).1 (argDisamb node₀ sf.2).2 with
  | (none, _) => .error .expectedNode
  | (some _, f₃) => .ok (compile f₃ sf.1)

/-- Values accepted by `parse` (and normalized by `new VFile(value)`):
raw text, an existing carrier file, or nothing. -/
inductive PVal where
  | str (s : String)
  | vfile (f : VFile)
  | undef
deriving Repr

/-- `new VFile(value)`: wrap raw text, keep an existing carrier file,
or produce an empty file. -/
def toVFile : PVal → VFile
  | .str s => ⟨s, []⟩
  | .vfile f => f
  | .undef => emptyVFile

/-- `parse(value, settings)` (lines 184-192).  `parser` models the
resolved Parser's asynchronous `parse()`: `.ok` a tree or `.error` a
rejection.  On resolution the tree is written to the file's namespace
slot unconditionally (line 189, overwriting any prior value) and the
promise resolves with the tree; a rejection passes through unchanged. -/
def parseFn (name : String) (parser : VFile → SVal → Except JErr Node)
    (value : PVal) (settings : SVal) : Except JErr (Node × VFile) :=
  let file := toVFile value
  match parser file settings with
  | .error e => .error e
  | .ok n => .ok (n, file.setTree name n)

/-- A Processor instance (lines 65-81).  `pid` models the identity of
the object (distinct constructions yield distinct `pid`s), `fns` the
transformers registered on its `AttachWare`, `parserId` / `compilerId`
the identities of its `unherit`-cloned Parser and Compiler
constructors, and `dataV` the value of its `data` payload. -/
structure Processor where
  pid : Nat
  fns : List Transformer
  parserId : Nat
  compilerId : Nat
  dataV : Option Nat

/-- `new Processor()`: allocate a fresh instance with a fresh empty
`AttachWare` and fresh `unherit` clones of the family's Parser and
Compiler; `data` is the family payload (deep-copied when truthy, which
preserves its value).  `c` is the identity-allocation counter; the
second component is the counter after construction. -/
def processorNew (d : Option Nat) (c : Nat) : Processor × Nat :=
  (⟨c, [], c + 1, c + 2, d⟩, c + 3)

/-- `Processor(arg)` called without `new` (or `new Processor(arg)`):
the guard at lines 68-70 turns the bare call into `new Processor(arg)`,
and the body never reads the `processor` argument, so the argument is
ignored and a fresh instance is produced. -/
def processorBareCall (d : Option Nat) (_arg : Option Processor) (c : Nat) :
    Processor × Nat :=
  processorNew d c

/-- The constructor body executed with an existing instance `p` as
receiver (`Processor.call(p)`): the `instanceof` guard passes, and the
body reassigns `p.ware` to a fresh empty `AttachWare` and `p.Parser` /
`p.Compiler` to fresh clones; the object identity and the `data` value
are preserved. -/
def processorOnReceiver (p : Processor) (c : Nat) : Processor × Nat :=
  ({ p with fns := [], parserId := c, compilerId := c + 1 }, c + 2)

/-- The private `instance(context)` helper (lines 93-95): return
`context` when it already is a Processor instance, otherwise construct
a new one.  There is no memoization: every call with a non-instance
context allocates a fresh instance. -/
def instanceFn (d : Option Nat) (context : Option Processor) (c : Nat) :
    Processor × Nat :=
  match context with
  | some p => (p, c)
  | none => processorNew d c

/-- `use(plugin, ...)` (lines 105-111): resolve the receiver to an
instance via `instanceFn`, then register the plugin's transformer at
the end of that instance's ware (`AttachWare#use` invokes the attacher
with the instance as context and pushes the transformer it returns),
returning the instance.  `context = none` models invocation on the
bare family class. -/
def useFn (d : Option Nat) (context : Option Processor) (t : Transformer)
    (c : Nat) : Processor × Nat :=
  let pc := instanceFn d context c
  ({ pc.1 with fns := pc.1.fns ++ [t] }, pc.2)

/-- Values accepted by `process` as its `value` argument. -/
inductive PInput where
  | str (s : String)
  | vfile (f : VFile)
  | node (n : Node)
  | null
  | undef
deriving Repr

/-- What `process`'s promise resolves with (lines 265-268):
`{ file: opts.file, result: res && res.result }`.  `file` is `none`
when `opts.file` was never set (i.e. the input was classified as a
tree). -/
structure ProcOut (α : Type) where
  file : Option VFile
  result : α
deriving DecidableEq, Repr

/-- `settings || {}` (line 252): a nullish settings argument is
replaced with a fresh empty options object. -/
def settingsOrEmpty (s : SVal) : SVal :=
  if s.isNullish then .obj 0 else s

/-- `process(value, settings)` (lines 248-271) running the module-level
three-step `pipeline` (lines 28-39).

Classification (lines 254-258): a string or carrier file is normalized
into `opts.file`; any other value is stored in `opts.tree` and
`opts.file` stays unset.  Step 1 parses unless `ctx.tree` is truthy,
writing the parsed tree back to the context (the carrier file, being
the same object `parse` wrote the namespace slot into, is updated in
place).  Step 2 hands the tree, the context's file and the step's
continuation to `run`; a synchronous throw inside a step is caught by
the runner and, like an error handed to the continuation, rejects the
promise.  Step 3 stores `stringify`'s result.  On success the promise
resolves with `{ file: opts.file, result }`; on any failure it rejects
with the error and nothing else.

`parser` and `compile` model the resolved instance's Parser and
Compiler behaviour; `fns` its registered transformers (`process`
resolves its receiver with `instance(this)`, so the receiver is always
an instance here). -/
def processFn {α : Type} (name : String)
    (parser : VFile → SVal → Except JErr Node)
    (compile : VFile → SVal → α)
    (fns : List Transformer)
    (value : PInput) (settings₀ : SVal) : Except JErr (ProcOut α) :=
  let settings := settingsOrEmpty settings₀
  let classified : Option VFile × Option Node :=
    match value with
    | .str s => (some ⟨s, []⟩, none)
    | .vfile f => (some f, none)
    | .node n => (none, some n)
    | .null => (none, none)
    | .undef => (none, none)
  let step1 : Except JErr (Option VFile × Node) :=
    match classified.2 with
    | some t => .ok (classified.1, t)
    | none =>
      match parseFn name parser
          (match classified.1 with | some f => .vfile f | none => .undef)
          settings with
      | .error e => .error e
      | .ok nf => .ok (classified.1.map (fun _ => nf.2), nf.1)
  match step1 with
  | .error e => .error e
  | .ok (fileOpt₁, t) =>
    match runFn name (some fns) (.node t)
        (match fileOpt₁ with | some f => .file f | none => .undef) with
    | .error e => .error e
    | .ok r =>
      match r.cbErr with
      | some e => .error e
      | none =>
        let fileOpt₂ := fileOpt₁.map (fun _ => r.file)
        match stringifyFn name compile (.node t)
            (match fileOpt₂ with | some f => .file f | none => .undef)
            settings with
        | .error e => .error e
        | .ok out => .ok ⟨fileOpt₂, out⟩

/-! ### Shared lemmas about the embedded collaborators -/

/-- Writing the namespace slot makes the subsequent read see the
stored tree. -/
theorem namespaceGet_setTree (f : VFile) (k : String) (n : Node) :
    (f.setTree k n).namespaceGet k = ⟨some n⟩ := by
  simp [VFile.setTree, VFile.namespaceGet, List.lookup]

/-- An empty carrier file has an empty namespace slot for every key. -/
theorem namespaceGet_empty (k : String) :
    emptyVFile.namespaceGet k = ⟨none⟩ := rfl

/-- When every registered transformer completes without error, the
runner executes all of them in registration order and reports no
error. -/
theorem wareRunGo_all_none (fns : List Transformer) (n : Node) (f : VFile)
    (h : ∀ t ∈ fns, t.act n f = none) :
    wareRunGo fns n f = (fns.map Transformer.tid, none) := by
  induction fns with
  | nil => rfl
  | cons t rest ih =>
    have ht : t.act n f = none := h t (by simp)
    have hrest : ∀ u ∈ rest, u.act n f = none := fun u hu => h u (by simp [hu])
    simp [wareRunGo, ht, ih hrest]

/-- The first transformer that reports an error stops the runner: the
transformers before it execute in order, it executes, those after it
never execute, and its error is reported. -/
theorem wareRunGo_first_error (pre : List Transformer) (b : Transformer)
    (post : List Transformer) (n : Node) (f : VFile) (e : JErr)
    (hpre : ∀ t ∈ pre, t.act n f = none) (hb : b.act n f = some e) :
    wareRunGo (pre ++ b :: post) n f =
      (pre.map Transformer.tid ++ [b.tid], some e) := by
  induction pre with
  | nil => simp [wareRunGo, hb]
  | cons t rest ih =>
    have ht : t.act n f = none := hpre t (by simp)
    have hrest : ∀ u ∈ rest, u.act n f = none := fun u hu => hpre u (by simp [hu])
    simp [wareRunGo, ht, ih hrest]

/-- `run` with an explicit tree and an explicit carrier file whose
namespace slot is empty: the slot is filled and the transformers see
the filled file. -/
theorem runFn_node_file_fill (name : String)
    (selfWare : Option (List Transformer)) (t : Node) (f : VFile)
    (hslot : (f.namespaceGet name).tree = none) :
    runFn name selfWare (.node t) (.file f) =
      .ok ⟨t, f.setTree name t,
        (wareOutcome selfWare t (f.setTree name t)).1,
        (wareOutcome selfWare t (f.setTree name t)).2⟩ := by
  simp [runFn, argDisamb, fileArgDrop, resolveTree, hslot]

/-- `run` with an explicit tree and a carrier file whose namespace slot
is already occupied: the slot is left alone. -/
theorem runFn_node_file_keep (name : String)
    (selfWare : Option (List Transformer)) (t : Node) (f : VFile)
    (t₀ : Node) (hslot : (f.namespaceGet name).tree = some t₀) :
    runFn name selfWare (.node t) (.file f) =
      .ok ⟨t, f, (wareOutcome selfWare t f).1, (wareOutcome selfWare t f).2⟩ := by
  simp [runFn, argDisamb, fileArgDrop, resolveTree, hslot]

/-- `run` with no tree argument reads the carrier file's namespace
slot. -/
theorem runFn_null_file (name : String)
    (selfWare : Option (List Transformer)) (f : VFile) (t₀ : Node)
    (hslot : (f.namespaceGet name).tree = some t₀) :
    runFn name selfWare .null (.file f) =
      .ok ⟨t₀, f, (wareOutcome selfWare t₀ f).1, (wareOutcome selfWare t₀ f).2⟩ := by
  simp [runFn, argDisamb, fileArgDrop, resolveTree, hslot]

/-! ### Claim theorems -/

/-- C5: for every call of `run` (and of `stringify`) in which no tree
can be resolved from either the explicit tree argument or the carrier
file's namespace slot — in particular `run()` with no tree argument and
an empty carrier file — the call fails with the `Expected node` error
raised as a synchronous throw (`Except.error`, the model of a throw),
not as a rejection or a callback error (which the model would record
inside an `.ok` result). -/
theorem C5_expected_node_sync_throw (name : String) (α : Type)
    (compile : VFile → SVal → α) :
    (∀ selfWare, runFn name selfWare .undef .undef = .error .expectedNode) ∧
    (∀ selfWare (f : VFile), (f.namespaceGet name).tree = none →
      runFn name selfWare .null (.file f) = .error .expectedNode) ∧
    (stringifyFn name compile .undef .undef .undef = .error .expectedNode) ∧
    (∀ (f : VFile) (o : Nat), (f.namespaceGet name).tree = none →
      stringifyFn name compile .null (.file f) (.obj o) =
        .error .expectedNode) := by
  refine ⟨fun selfWare => rfl, fun selfWare f h => ?_, rfl, fun f o h => ?_⟩
  · simp [runFn, argDisamb, fileArgDrop, resolveTree, h]
  · simp [stringifyFn, argDisamb, resolveTree, SVal.isNullish, h]

theorem C5_expected_node_sync_throw_witness :
    runFn "u" none .undef .undef = .error .expectedNode ∧
    runFn "u" none .null (.file emptyVFile) = .error .expectedNode ∧
    stringifyFn "u" (fun _ _ => (0 : Nat)) .undef .undef .undef =
      .error .expectedNode ∧
    stringifyFn "u" (fun _ _ => (0 : Nat)) .null (.file emptyVFile) (.obj 0) =
      .error .expectedNode := by
  obtain ⟨h1, h2, h3, h4⟩ :=
    C5_expected_node_sync_throw "u" Nat (fun _ _ => 0)
  exact ⟨h1 none, h2 none emptyVFile rfl, h3, h4 emptyVFile 0 rfl⟩

/-- C6: for every tree `t` and carrier file `f` whose namespace slot is
empty, `run(t, f)` stores `t` in `f`'s namespace slot (fill-if-empty,
never overwriting a non-empty slot), and a subsequent `run(null, file)`
with the tree omitted on the same file resolves and returns that same
tree `t`. -/
theorem C6_run_fill_then_read (name : String)
    (selfWare : Option (List Transformer)) (t : Node) (f : VFile)
    (hslot : (f.namespaceGet name).tree = none) :
    (∃ r, runFn name selfWare (.node t) (.file f) = .ok r ∧
      r.ret = t ∧ r.file = f.setTree name t ∧
      (r.file.namespaceGet name).tree = some t ∧
      ∃ r₂, runFn name selfWare .null (.file r.file) = .ok r₂ ∧ r₂.ret = t) ∧
    (∀ (g : VFile) (t₀ : Node), (g.namespaceGet name).tree = some t₀ →
      ∃ r, runFn name selfWare (.node t) (.file g) = .ok r ∧ r.file = g) := by
  constructor
  · refine ⟨_, runFn_node_file_fill name selfWare t f hslot, rfl, rfl, ?_, ?_⟩
    · simp [namespaceGet_setTree]
    · exact ⟨_, runFn_null_file name selfWare (f.setTree name t) t
        (by simp [namespaceGet_setTree]), rfl⟩
  · intro g t₀ h
    exact ⟨_, runFn_node_file_keep name selfWare t g t₀ h, rfl⟩

theorem C6_run_fill_then_read_witness :
    (emptyVFile.namespaceGet "u").tree = none ∧
    (∃ r, runFn "u" (some []) (.node ⟨some "root", 5⟩) (.file emptyVFile) =
        .ok r ∧
      r.ret = ⟨some "root", 5⟩ ∧
      r.file = emptyVFile.setTree "u" ⟨some "root", 5⟩ ∧
      (r.file.namespaceGet "u").tree = some ⟨some "root", 5⟩ ∧
      ∃ r₂, runFn "u" (some []) .null (.file r.file) = .ok r₂ ∧
        r₂.ret = ⟨some "root", 5⟩) := by
  exact ⟨rfl, (C6_run_fill_then_read "u" (some []) ⟨some "root", 5⟩
    emptyVFile rfl).1⟩

/-- C9: for a Processor instance with transformers registered via `use`
in order `[A, B, C]`, a `run` invocation executes them in exactly that
order, one at a time; if `B` reports an error, `C` never executes and
the callback receives `B`'s error (the first error short-circuits all
remaining transformers for that invocation). -/
theorem C9_transformer_order_short_circuit (name : String)
    (A B C : Transformer) (t : Node) (f : VFile) (e : JErr)
    (hslot : (f.namespaceGet name).tree = none) :
    (A.act t (f.setTree name t) = none →
      B.act t (f.setTree name t) = some e →
      runFn name (some [A, B, C]) (.node t) (.file f) =
        .ok ⟨t, f.setTree name t, [A.tid, B.tid], some e⟩) ∧
    (A.act t (f.setTree name t) = none →
      B.act t (f.setTree name t) = none →
      C.act t (f.setTree name t) = none →
      runFn name (some [A, B, C]) (.node t) (.file f) =
        .ok ⟨t, f.setTree name t, [A.tid, B.tid, C.tid], none⟩) := by
  constructor
  · intro hA hB
    rw [runFn_node_file_fill name (some [A, B, C]) t f hslot]
    simp [wareOutcome, wareRunGo, hA, hB]
  · intro hA hB hC
    rw [runFn_node_file_fill name (some [A, B, C]) t f hslot]
    simp [wareOutcome, wareRunGo, hA, hB, hC]

theorem C9_transformer_order_short_circuit_witness :
    runFn "u" (some [⟨1, fun _ _ => none⟩, ⟨2, fun _ _ => some (.user 4)⟩,
        ⟨3, fun _ _ => none⟩]) (.node ⟨some "root", 5⟩) (.file emptyVFile) =
      .ok ⟨⟨some "root", 5⟩, emptyVFile.setTree "u" ⟨some "root", 5⟩,
        [1, 2], some (.user 4)⟩ ∧
    runFn "u" (some [⟨1, fun _ _ => none⟩, ⟨2, fun _ _ => none⟩,
        ⟨3, fun _ _ => none⟩]) (.node ⟨some "root", 5⟩) (.file emptyVFile) =
      .ok ⟨⟨some "root", 5⟩, emptyVFile.setTree "u" ⟨some "root", 5⟩,
        [1, 2, 3], none⟩ := by
  constructor
  · exact (C9_transformer_order_short_circuit "u" ⟨1, fun _ _ => none⟩
      ⟨2, fun _ _ => some (.user 4)⟩ ⟨3, fun _ _ => none⟩ ⟨some "root", 5⟩
      emptyVFile (.user 4) rfl).1 rfl rfl
  · exact (C9_transformer_order_short_circuit "u" ⟨1, fun _ _ => none⟩
      ⟨2, fun _ _ => none⟩ ⟨3, fun _ _ => none⟩ ⟨some "root", 5⟩
      emptyVFile (.user 4) rfl).2 rfl rfl rfl

/-- C10: for every call of `run` whose receiver is not a Processor
instance (`run` invoked on the bare family class), no registered
transformer of any instance executes: `run` uses its receiver directly
without resolving it to an instance, the receiver has no ware registry,
so the callback is invoked immediately with no error and the resolved
tree, and the tree is still returned synchronously. -/
theorem C10_bare_class_run_skips_transformers (name : String) (t : Node)
    (f : VFile) :
    ((f.namespaceGet name).tree = none →
      runFn name none (.node t) (.file f) =
        .ok ⟨t, f.setTree name t, [], none⟩) ∧
    (∀ t₀ : Node, (f.namespaceGet name).tree = some t₀ →
      runFn name none (.node t) (.file f) = .ok ⟨t, f, [], none⟩ ∧
      runFn name none .null (.file f) = .ok ⟨t₀, f, [], none⟩) := by
  constructor
  · intro h
    rw [runFn_node_file_fill name none t f h]
    rfl
  · intro t₀ h
    exact ⟨by rw [runFn_node_file_keep name none t f t₀ h]; rfl,
      by rw [runFn_null_file name none f t₀ h]; rfl⟩

theorem C10_bare_class_run_skips_transformers_witness :
    runFn "u" none (.node ⟨some "root", 5⟩) (.file emptyVFile) =
      .ok ⟨⟨some "root", 5⟩, emptyVFile.setTree "u" ⟨some "root", 5⟩,
        [], none⟩ := by
  exact (C10_bare_class_run_skips_transformers "u" ⟨some "root", 5⟩
    emptyVFile).1 rfl

/-- C8: for every successful `parse(input, settings)` call, the tree
produced by the Parser is attached to the carrier file's namespace slot
under the family's namespace key, overwriting any prior value in that
slot, and the returned promise resolves with that tree; if the Parser's
asynchronous `parse()` rejects, `parse` propagates that rejection
unchanged. -/
theorem C8_parse_attach_overwrite (name : String)
    (parser : VFile → SVal → Except JErr Node) (settings : SVal) :
    (∀ (value : PVal) (n : Node),
      parser (toVFile value) settings = .ok n →
      parseFn name parser value settings =
        .ok (n, (toVFile value).setTree name n) ∧
      ((toVFile value).setTree name n).namespaceGet name = ⟨some n⟩) ∧
    (∀ (value : PVal) (e : JErr),
      parser (toVFile value) settings = .error e →
      parseFn name parser value settings = .error e) := by
  constructor
  · intro value n h
    exact ⟨by simp [parseFn, h], namespaceGet_setTree _ _ _⟩
  · intro value e h
    simp [parseFn, h]

theorem C8_parse_attach_overwrite_witness :
    parseFn "u" (fun _ _ => .ok ⟨some "root", 5⟩)
        (.vfile (VFile.mk "x" [("u", ⟨some ⟨some "old", 9⟩⟩)])) .undef =
      .ok (⟨some "root", 5⟩,
        (VFile.mk "x" [("u", ⟨some ⟨some "old", 9⟩⟩)]).setTree "u"
          ⟨some "root", 5⟩) ∧
    ((VFile.mk "x" [("u", ⟨some ⟨some "old", 9⟩⟩)]).setTree "u"
        ⟨some "root", 5⟩).namespaceGet "u" = ⟨some ⟨some "root", 5⟩⟩ ∧
    parseFn "u" (fun _ _ => .error (.user 3))
        (.vfile (VFile.mk "x" [("u", ⟨some ⟨some "old", 9⟩⟩)])) .undef =
      .error (.user 3) := by
  obtain ⟨h1, h2⟩ := (C8_parse_attach_overwrite "u"
    (fun _ _ => .ok ⟨some "root", 5⟩) .undef).1
    (.vfile (VFile.mk "x" [("u", ⟨some ⟨some "old", 9⟩⟩)])) ⟨some "root", 5⟩ rfl
  exact ⟨h1, h2, (C8_parse_attach_overwrite "u"
    (fun _ _ => .error (.user 3)) .undef).2
    (.vfile (VFile.mk "x" [("u", ⟨some ⟨some "old", 9⟩⟩)])) (.user 3) rfl⟩

/-- C3, counterexample: `stringify(node, file)` with the settings
argument absent does NOT reinterpret the would-be file argument as the
file.  At the concrete call below the Compiler is constructed with a
fresh empty carrier file (with the tree filled into its slot) as its
file, while the carrier file the caller passed arrives as the
Compiler's SETTINGS argument; the passed file (contents `"x"`) never
reaches the file position. -/
theorem C3_file_arg_becomes_settings_cex :
    stringifyFn "u" (fun f s => (f, s)) (.node ⟨some "root", 5⟩)
        (.file (VFile.mk "x" [])) .undef =
      .ok (emptyVFile.setTree "u" ⟨some "root", 5⟩,
        SVal.file (VFile.mk "x" [])) ∧
    emptyVFile.setTree "u" ⟨some "root", 5⟩ ≠
      (VFile.mk "x" []).setTree "u" ⟨some "root", 5⟩ := by
  exact ⟨rfl, by decide⟩

/-- C3, amended: for every call `stringify(node, file)` where the
settings argument is absent (null or undefined), the would-be file
argument is reinterpreted as the SETTINGS and the file slot is cleared
(a fresh empty carrier file is constructed in its place); the same
tree-resolution precedence as `run` then applies (explicit tree
argument wins and fills the namespace slot if empty, otherwise the
slot's tree is used, otherwise the `Expected node` error is thrown),
and the Compiler's synchronous `compile()` result is returned
directly. -/
theorem C3_stringify_overloads (name : String) (α : Type)
    (compile : VFile → SVal → α) :
    (∀ (n : Node) (fa : SFileArg), n.typeTruthy = true →
      stringifyFn name compile (.node n) fa .undef =
        .ok (compile (emptyVFile.setTree name n) (sfileToSVal fa)) ∧
      stringifyFn name compile (.node n) fa .null =
        .ok (compile (emptyVFile.setTree name n) (sfileToSVal fa))) ∧
    (∀ (f : VFile) (t₀ : Node) (o : Nat),
      (f.namespaceGet name).tree = some t₀ →
      stringifyFn name compile .null (.file f) (.obj o) =
        .ok (compile f (.obj o))) ∧
    (∀ (n : Node) (f : VFile) (o : Nat),
      (f.namespaceGet name).tree = none →
      stringifyFn name compile (.node n) (.file f) (.obj o) =
        .ok (compile (f.setTree name n) (.obj o))) ∧
    (∀ (o : Nat),
      stringifyFn name compile .null .null (.obj o) =
        .error .expectedNode) := by
  refine ⟨fun n fa hn => ⟨?_, ?_⟩, fun f t₀ o h => ?_, fun n f o h => ?_,
    fun o => rfl⟩
  · simp [stringifyFn, argDisamb, resolveTree, SVal.isNullish, hn,
      namespaceGet_empty]
  · simp [stringifyFn, argDisamb, resolveTree, SVal.isNullish, hn,
      namespaceGet_empty]
  · simp [stringifyFn, argDisamb, resolveTree, SVal.isNullish, h]
  · simp [stringifyFn, argDisamb, resolveTree, SVal.isNullish, h]

theorem C3_stringify_overloads_witness :
    stringifyFn "u" (fun f s => (f, s)) (.node ⟨some "root", 5⟩)
        (.file (VFile.mk "x" [])) .undef =
      .ok (emptyVFile.setTree "u" ⟨some "root", 5⟩,
        SVal.file (VFile.mk "x" [])) ∧
    stringifyFn "u" (fun f s => (f, s)) .null
        (.file (emptyVFile.setTree "u" ⟨some "root", 5⟩)) (.obj 2) =
      .ok (emptyVFile.setTree "u" ⟨some "root", 5⟩, SVal.obj 2) ∧
    stringifyFn "u" (fun f s => (f, s)) (.node ⟨some "root", 5⟩)
        (.file (VFile.mk "x" [])) (.obj 2) =
      .ok ((VFile.mk "x" []).setTree "u" ⟨some "root", 5⟩, SVal.obj 2) ∧
    stringifyFn "u" (fun f s => (f, s)) .null .null (.obj 2) =
      .error .expectedNode := by
  obtain ⟨h1, h2, h3, h4⟩ := C3_stringify_overloads "u" (VFile × SVal)
    (fun f s => (f, s))
  refine ⟨(h1 ⟨some "root", 5⟩ (.file (VFile.mk "x" [])) rfl).1,
    h2 (emptyVFile.setTree "u" ⟨some "root", 5⟩) ⟨some "root", 5⟩ 2 ?_,
    h3 ⟨some "root", 5⟩ (VFile.mk "x" []) 2 rfl, h4 2⟩
  simp [namespaceGet_setTree]

/-- A transformer that always continues, used as a concrete plugin in
the counterexamples. -/
def okTrans (i : Nat) : Transformer := ⟨i, fun _ _ => none⟩

/-- C1, counterexample: two successive `use` calls on the bare family
class do NOT operate on one memoized default instance.  Starting from
allocation counter 0, the first bare-class `use` builds the instance
with identity 0 and registry `[7]`; the second bare-class `use` builds
a distinct instance (identity 3) whose registry is `[8]` — the first
plugin is absent from it, so the two plugins do not end up in one
registry. -/
theorem C1_no_memoized_default_cex :
    (useFn none none (okTrans 8) (useFn none none (okTrans 7) 0).2).1.pid ≠
      (useFn none none (okTrans 7) 0).1.pid ∧
    (useFn none none (okTrans 7) 0).1.fns.map Transformer.tid = [7] ∧
    (useFn none none (okTrans 8)
        (useFn none none (okTrans 7) 0).2).1.fns.map Transformer.tid =
      [8] := by
  exact ⟨by decide, rfl, rfl⟩

/-- C1, amended: invoking `use` (or any other API method) on the bare
family class resolves the receiver to a freshly constructed default
instance — one per call, with no memoization: two successive bare-class
`use` calls operate on two distinct default instances, so each plugin
ends up in its own instance's registry; both plugins end up in one
registry only when the second `use` is chained on the instance returned
by the first. -/
theorem C1_bare_use_fresh_instance (d : Option Nat) (tA tB : Transformer)
    (c : Nat) :
    (useFn d none tA c).1.pid ≠
      (useFn d none tB (useFn d none tA c).2).1.pid ∧
    (useFn d none tA c).1.fns.map Transformer.tid = [tA.tid] ∧
    (useFn d none tB (useFn d none tA c).2).1.fns.map Transformer.tid =
      [tB.tid] ∧
    (useFn d (some (useFn d none tA c).1) tB
        (useFn d none tA c).2).1.fns.map Transformer.tid =
      [tA.tid, tB.tid] ∧
    (useFn d (some (useFn d none tA c).1) tB (useFn d none tA c).2).1.pid =
      (useFn d none tA c).1.pid := by
  refine ⟨?_, rfl, rfl, rfl, rfl⟩
  simp only [useFn, instanceFn, processorNew]
  omega

/-- C2, counterexample: re-invoking the constructor on an already-valid
instance is not a no-op.  `pEx` is an instance holding one registered
plugin (registry `[7]`).  Running the constructor body with `pEx` as
receiver empties its ware registry and replaces its Parser/Compiler
clones, and calling the constructor with `pEx` as argument returns a
distinct fresh instance, not `pEx`. -/
theorem C2_constructor_not_noop_cex :
    ((processorOnReceiver (useFn none none (okTrans 7) 0).1 10).1.fns.map
        Transformer.tid = [] ∧
      (useFn none none (okTrans 7) 0).1.fns.map Transformer.tid = [7]) ∧
    (processorOnReceiver (useFn none none (okTrans 7) 0).1 10).1.parserId ≠
      (useFn none none (okTrans 7) 0).1.parserId ∧
    (processorBareCall none (some (useFn none none (okTrans 7) 0).1) 10).1.pid
      ≠ (useFn none none (okTrans 7) 0).1.pid := by
  exact ⟨⟨rfl, rfl⟩, by decide, by decide⟩

/-- C2, amended: any invocation of the constructor yields a valid
Processor instance (fresh empty ware registry, fresh Parser/Compiler
clones), but invoking it again for an already-valid instance `p` is not
a no-op: called (with or without `new`) with `p` as argument, the
argument is ignored and a fresh instance is returned; invoked with `p`
as receiver, it reinitializes `p`'s ware registry (emptying it) and
replaces its Parser and Compiler with fresh clones, preserving only
`p`'s identity and its `data` value.  The return-`p`-unchanged
behaviour belongs instead to the private `instance` helper the API
methods use to resolve their receiver. -/
theorem C2_constructor_reinitializes (d : Option Nat) (p : Processor)
    (c : Nat) :
    instanceFn d (some p) c = (p, c) ∧
    (processorBareCall d (some p) c).1.pid = c ∧
    (processorBareCall d (some p) c).1.fns = [] ∧
    (processorBareCall d (some p) c).1.parserId = c + 1 ∧
    (processorBareCall d (some p) c).1.compilerId = c + 2 ∧
    (processorBareCall d (some p) c).1.dataV = d ∧
    (processorOnReceiver p c).1.pid = p.pid ∧
    (processorOnReceiver p c).1.fns = [] ∧
    (processorOnReceiver p c).1.dataV = p.dataV ∧
    (processorOnReceiver p c).1.parserId = c ∧
    (processorOnReceiver p c).1.compilerId = c + 1 := by
  exact ⟨rfl, rfl, rfl, rfl, rfl, rfl, rfl, rfl, rfl, rfl, rfl⟩

/-- `settings || {}` never leaves a nullish settings value on the
pipeline context, so the settings reinterpretation branch of
`stringify` is never taken from inside `process`. -/
theorem settingsOrEmpty_not_nullish (s : SVal) :
    (settingsOrEmpty s).isNullish = false := by
  cases s <;> rfl

/-- C7: for every `process` invocation during which some registered
transformer invokes its continuation with an error object `e`, the
pipeline promise rejects with that same object `e` (object identity is
modelled by `JErr` equality), the stringify step never runs (the
outcome is the same for every Compiler, universally quantified here),
and no partial `{file, result}` object is produced (`Except.error`
carries nothing else).  Transformers registered after the failing one
never execute (`post` is universally quantified). -/
theorem C7_transformer_error_rejects_process (name : String) (α : Type)
    (parser : VFile → SVal → Except JErr Node)
    (compile : VFile → SVal → α)
    (pre post : List Transformer) (b : Transformer)
    (s : String) (settings₀ : SVal) (t : Node) (e : JErr)
    (hparse : parser ⟨s, []⟩ (settingsOrEmpty settings₀) = .ok t)
    (hpre : ∀ tr ∈ pre, tr.act t ((VFile.mk s []).setTree name t) = none)
    (hb : b.act t ((VFile.mk s []).setTree name t) = some e) :
    processFn name parser compile (pre ++ b :: post) (.str s) settings₀ =
      .error e := by
  have hware := wareRunGo_first_error pre b post t
    ((VFile.mk s []).setTree name t) e hpre hb
  simp [processFn, parseFn, toVFile, hparse, runFn, argDisamb, fileArgDrop,
    resolveTree, namespaceGet_setTree, wareOutcome, hware]

theorem C7_transformer_error_rejects_process_witness :
    processFn "u" (fun _ _ => .ok ⟨some "root", 5⟩) (fun _ _ => (0 : Nat))
        [okTrans 1, ⟨2, fun _ _ => some (.user 4)⟩, okTrans 3]
        (.str "x") .undef =
      .error (.user 4) := by
  have hpre : ∀ tr ∈ [okTrans 1],
      tr.act ⟨some "root", 5⟩
        ((VFile.mk "x" []).setTree "u" ⟨some "root", 5⟩) = none := by
    intro tr htr
    rw [List.mem_singleton] at htr
    rw [htr]
    rfl
  exact C7_transformer_error_rejects_process "u" Nat
    (fun _ _ => .ok ⟨some "root", 5⟩) (fun _ _ => 0)
    [okTrans 1] [okTrans 3] ⟨2, fun _ _ => some (.user 4)⟩ "x" .undef
    ⟨some "root", 5⟩ (.user 4) rfl hpre rfl

/-- C4, counterexample: `process` with a non-string, non-carrier-file
input does NOT construct an empty carrier file to carry alongside the
tree.  At the concrete call below (a tree input on a processor with no
transformers), the promise resolves with `file` absent (`none`, i.e.
JavaScript `undefined`) rather than with a freshly constructed empty
carrier file; the parser below rejects, which also shows the parse step
never ran.  -/
theorem C4_no_file_for_tree_input_cex :
    processFn "u" (fun _ _ => .error (.user 9)) (fun _ _ => (0 : Nat)) []
        (.node ⟨some "root", 5⟩) .null = .ok ⟨none, 0⟩ ∧
    (ProcOut.mk (α := Nat) none 0).file ≠ some emptyVFile := by
  exact ⟨rfl, by decide⟩

/-- C4, amended: for every call of `process(input, settings)`: if
`input` is a string or a carrier file it is normalized into a carrier
file stored on the pipeline context; any other value is placed in the
context's tree slot with NO carrier file constructed or stored (fresh
empty carrier files arise only transiently inside the run and stringify
steps).  The returned promise resolves with an object pairing the
context's carrier file — absent for tree input — with the stringify
result, and rejects with no partial result if any step fails. -/
theorem C4_process_classification (name : String) (α : Type)
    (parser : VFile → SVal → Except JErr Node)
    (compile : VFile → SVal → α) (fns : List Transformer)
    (settings₀ : SVal) :
    (∀ t : Node, t.typeTruthy = true →
      (∀ tr ∈ fns, tr.act t (emptyVFile.setTree name t) = none) →
      processFn name parser compile fns (.node t) settings₀ =
        .ok ⟨none,
          compile (emptyVFile.setTree name t) (settingsOrEmpty settings₀)⟩) ∧
    (∀ (s : String) (t : Node),
      parser ⟨s, []⟩ (settingsOrEmpty settings₀) = .ok t →
      (∀ tr ∈ fns, tr.act t ((VFile.mk s []).setTree name t) = none) →
      processFn name parser compile fns (.str s) settings₀ =
        .ok ⟨some ((VFile.mk s []).setTree name t),
          compile ((VFile.mk s []).setTree name t)
            (settingsOrEmpty settings₀)⟩) ∧
    (∀ (s : String) (e : JErr),
      parser ⟨s, []⟩ (settingsOrEmpty settings₀) = .error e →
      processFn name parser compile fns (.str s) settings₀ = .error e) := by
  refine ⟨fun t ht hfns => ?_, fun s t hparse hfns => ?_,
    fun s e hparse => ?_⟩
  · have hware := wareRunGo_all_none fns t (emptyVFile.setTree name t) hfns
    simp [processFn, runFn, stringifyFn, argDisamb, fileArgDrop, resolveTree,
      namespaceGet_empty, namespaceGet_setTree, wareOutcome, hware, ht,
      settingsOrEmpty_not_nullish]
  · have hware := wareRunGo_all_none fns t ((VFile.mk s []).setTree name t)
      hfns
    simp [processFn, parseFn, toVFile, hparse, runFn, stringifyFn, argDisamb,
      fileArgDrop, resolveTree, namespaceGet_setTree, wareOutcome, hware,
      settingsOrEmpty_not_nullish]
  · simp [processFn, parseFn, toVFile, hparse]

theorem C4_process_classification_witness :
    processFn "u" (fun _ _ => .error (.user 9)) (fun f s => (f, s)) []
        (.node ⟨some "root", 5⟩) .null =
      .ok ⟨none, (emptyVFile.setTree "u" ⟨some "root", 5⟩, SVal.obj 0)⟩ ∧
    processFn "u" (fun _ _ => .ok ⟨some "root", 5⟩) (fun f s => (f, s)) []
        (.str "x") .null =
      .ok ⟨some ((VFile.mk "x" []).setTree "u" ⟨some "root", 5⟩),
        ((VFile.mk "x" []).setTree "u" ⟨some "root", 5⟩, SVal.obj 0)⟩ ∧
    processFn "u" (fun _ _ => .error (.user 9)) (fun f s => (f, s)) []
        (.str "x") .null = .error (.user 9) := by
  have hvac : ∀ tr ∈ ([] : List Transformer),
      tr.act ⟨some "root", 5⟩
        (emptyVFile.setTree "u" ⟨some "root", 5⟩) = none := by
    intro tr htr
    cases htr
  have hvac2 : ∀ tr ∈ ([] : List Transformer),
      tr.act ⟨some "root", 5⟩
        ((VFile.mk "x" []).setTree "u" ⟨some "root", 5⟩) = none := by
    intro tr htr
    cases htr
  obtain ⟨h1, h2, h3⟩ := C4_process_classification "u" (VFile × SVal)
    (fun _ _ => .error (.user 9)) (fun f s => (f, s)) [] .null
  obtain ⟨g1, g2, g3⟩ := C4_process_classification "u" (VFile × SVal)
    (fun _ _ => .ok ⟨some "root", 5⟩) (fun f s => (f, s)) [] .null
  exact ⟨h1 ⟨some "root", 5⟩ rfl hvac, g2 "x" ⟨some "root", 5⟩ rfl hvac2,
    h3 "x" (.user 9) rfl⟩
